import Mathlib

/-!
Shallow embedding of the language-understanding and multi-provider
orchestration engine of the AI task manager
(`src/services/ai_service.py`), together with theorems settling the
behavioural claims about it.

Strings are modelled as `List Char`.  `str.lower()` is modelled by
ASCII lowercasing (`Char.toLower`), which agrees with Python on every
character appearing in the engine's lexicons and inputs (ASCII and CJK).
The handful of regular expressions used by the source are modelled by a
small backtracking matcher (`RE`, `mlens`) whose candidate matches are
enumerated in Python's backtracking priority order (alternation
left-first, greedy quantifiers longest-first), so that the head of the
candidate list coincides with the match `re.search`/`re.sub` selects.
-/

namespace AiService

/-- Python substring prefix test: `isPre n h` holds when `n` is a prefix of `h`. -/
def isPre : List Char → List Char → Bool
  | [], _ => true
  | _ :: _, [] => false
  | a :: as, b :: bs => a == b && isPre as bs

/-- Python `needle in hay` substring test over character lists. -/
def isSubstr (needle : List Char) : List Char → Bool
  | [] => needle.isEmpty
  | c :: rest => isPre needle (c :: rest) || isSubstr needle rest

/-- Python `str.lower()` restricted to the character repertoire the engine
uses: ASCII letters are lowercased, all other characters (CJK, digits,
punctuation) are unchanged. -/
def pyLower (s : List Char) : List Char := s.map Char.toLower

/-- The whitespace characters recognised by Python's `\s` and `str.strip()`
on the character repertoire the engine uses. -/
def wsChar (c : Char) : Bool :=
  [' ', '\t', '\n', '\r', Char.ofNat 11, Char.ofNat 12, Char.ofNat 0x3000].contains c

/-- Python `str.strip()`: drop whitespace from both ends. -/
def pyStrip (s : List Char) : List Char :=
  ((s.dropWhile wsChar).reverse.dropWhile wsChar).reverse

/-- Numeric value of a list of decimal digit characters (`int(...)` on a
digits-only string). -/
def digitsVal (s : List Char) : Nat :=
  s.foldl (fun a c => a * 10 + (c.toNat - 48)) 0

/-- Python `\w` (word character) on the engine's character repertoire:
ASCII alphanumerics, underscore, and CJK ideographs. -/
def isWordChar (c : Char) : Bool :=
  c.isAlphanum || c == '_' || (0x4E00 ≤ c.toNat && c.toNat ≤ 0x9FFF)

/-- Regular-expression fragments used by the source, as a tiny syntax:
character classes, sequencing, prioritized alternation, greedy class
star, and the word boundary `\b`. -/
inductive RE where
  | eps
  | cls (p : Char → Bool)
  | seq (a b : RE)
  | alt (a b : RE)
  | star (p : Char → Bool)
  | bnd

/-- Length of the maximal prefix run of characters satisfying `p`. -/
def runLen (p : Char → Bool) : List Char → Nat
  | [] => 0
  | c :: r => if p c then 1 + runLen p r else 0

/-- The list `[n, n-1, ..., 0]`: greedy priority order for a star. -/
def downFrom : Nat → List Nat
  | 0 => [0]
  | n + 1 => (n + 1) :: downFrom n

/-- Last character of `l`, or `dflt` when `l` is empty (used to thread the
character preceding the current position through a sequence). -/
def lastOpt (l : List Char) (dflt : Option Char) : Option Char :=
  match l.getLast? with
  | some c => some c
  | none => dflt

/-- Whether an optional character is a word character (`none` = string edge). -/
def wordOpt : Option Char → Bool
  | none => false
  | some c => isWordChar c

/-- All candidate match lengths of `r` at the start of `s`, in Python's
backtracking priority order; `prev` is the character just before the
current position (for `\b`). -/
def mlens : RE → Option Char → List Char → List Nat
  | .eps, _, _ => [0]
  | .cls p, _, s =>
    match s with
    | [] => []
    | c :: _ => if p c then [1] else []
  | .alt a b, prev, s => mlens a prev s ++ mlens b prev s
  | .seq a b, prev, s =>
    (mlens a prev s).flatMap fun la =>
      (mlens b (lastOpt (s.take la) prev) (s.drop la)).map fun lb => la + lb
  | .star p, _, s => downFrom (runLen p s)
  | .bnd, prev, s => if wordOpt prev != wordOpt s.head? then [0] else []

/-- Leftmost match search (`re.search`): returns the start index and length
of the first match, scanning positions left to right. -/
def researchAux (r : RE) : Option Char → Nat → List Char → Option (Nat × Nat)
  | prev, i, s =>
    match (mlens r prev s).head? with
    | some l => some (i, l)
    | none =>
      match s with
      | [] => none
      | c :: rest => researchAux r (some c) (i + 1) rest

/-- Leftmost match of `r` in `s` as `(start, length)`, like `re.search`. -/
def research (r : RE) (s : List Char) : Option (Nat × Nat) :=
  researchAux r none 0 s

/-- Fuelled worker for `re.sub`: replace every non-overlapping match of `r`
by `rep`, scanning left to right.  The fuel is an upper bound on the number
of steps (one step per character or per match) and never runs out when
started with `s.length + 1`. -/
def subAllF (r : RE) (rep : List Char) : Nat → Option Char → List Char → List Char
  | 0, _, s => s
  | fuel + 1, prev, s =>
    match (mlens r prev s).head? with
    | none =>
      match s with
      | [] => []
      | c :: rest => c :: subAllF r rep fuel (some c) rest
    | some l =>
      match s with
      | [] => rep
      | c :: rest =>
        if l == 0 then rep ++ c :: subAllF r rep fuel (some c) rest
        else rep ++ subAllF r rep fuel (lastOpt ((c :: rest).take l) prev) ((c :: rest).drop l)

/-- Python `re.sub(pattern, rep, s)` for the patterns modelled here. -/
def subAll (r : RE) (rep : List Char) (s : List Char) : List Char :=
  subAllF r rep (s.length + 1) none s

/-- Case-insensitive literal character (the source lowercases the text or
passes `re.IGNORECASE`; CJK characters are unaffected by lowercasing). -/
def lchar (c : Char) : RE := .cls (fun x => x.toLower == c)

/-- Case-insensitive literal string. -/
def litL (s : List Char) : RE := s.foldr (fun c r => .seq (lchar c) r) .eps

/-- Prioritized alternation of a list of alternatives (left first). -/
def altList : List RE → RE
  | [] => .cls (fun _ => false)
  | [r] => r
  | r :: rest => .alt r (altList rest)

/-- Greedy optional fragment `r?` (present first). -/
def optRE (r : RE) : RE := .alt r .eps

/-- The pattern `\s*`. -/
def wsStar : RE := .star wsChar

/-- The pattern `\s+`. -/
def wsPlus : RE := .seq (.cls wsChar) wsStar

/-- The pattern `\d{1,2}` (greedy: two digits tried before one). -/
def rep12d : RE := .alt (.seq (.cls Char.isDigit) (.cls Char.isDigit)) (.cls Char.isDigit)

/-- The apostrophe character. -/
def apos : Char := Char.ofNat 39

/-- The pattern `(\d{1,2})\s*(?:pm|p\.m\.)` from `_parse_time_hint`. -/
def pmRE : RE :=
  .seq rep12d (.seq wsStar (.alt (litL "pm".data) (litL "p.m.".data)))

/-- The pattern `(\d{1,2})\s*(?:am|a\.m\.)` from `_parse_time_hint`. -/
def amRE : RE :=
  .seq rep12d (.seq wsStar (.alt (litL "am".data) (litL "a.m.".data)))

/-- The pattern `(\d{1,2}):(\d{2})` from `_parse_time_hint`. -/
def hmRE : RE :=
  .seq rep12d (.seq (lchar ':') (.seq (.cls Char.isDigit) (.cls Char.isDigit)))

/-- The pattern `(上午|下午|晚上)?\s*(\d{1,2})点` from `_parse_time_hint`. -/
def cnTimeRE : RE :=
  .seq (optRE (altList [litL "上午".data, litL "下午".data, litL "晚上".data]))
    (.seq wsStar (.seq rep12d (lchar '点')))

/-- The segment of `s` matched at `(start, length)`. -/
def seg (s : List Char) (st len : Nat) : List Char := (s.drop st).take len

/-- Model of `_parse_time_hint`: extract an `(hour, minute)` hint from the
text, trying the English pm/am/`HH:MM` patterns on the lowered text and
then the Chinese `<period>H点` pattern, exactly as the source does. -/
def parse_time_hint (text : List Char) : Option (Nat × Nat) :=
  let tl := pyLower text
  match research pmRE tl with
  | some (i, l) =>
    let hour := digitsVal ((seg tl i l).takeWhile Char.isDigit)
    some (if hour < 12 then hour + 12 else hour, 0)
  | none =>
  match research amRE tl with
  | some (i, l) =>
    let hour := digitsVal ((seg tl i l).takeWhile Char.isDigit)
    some (if hour == 12 then 0 else hour, 0)
  | none =>
  match research hmRE tl with
  | some (i, l) =>
    let consumed := seg tl i l
    let g1 := consumed.takeWhile Char.isDigit
    let hour := digitsVal g1
    let minute := digitsVal (consumed.drop (g1.length + 1))
    let after := (tl.drop (i + l)).take 10
    let hour :=
      if isSubstr "pm".data after then (if hour < 12 then hour + 12 else hour)
      else if isSubstr "am".data after then (if hour == 12 then 0 else hour)
      else hour
    some (hour, minute)
  | none =>
  match research cnTimeRE text with
  | some (i, l) =>
    let consumed := seg text i l
    let period : Option Char :=
      match consumed.head? with
      | some c => if c == '上' || c == '下' || c == '晚' then some c else none
      | none => none
    let hour :=
      digitsVal (((consumed.dropWhile (fun c => !c.isDigit)).takeWhile Char.isDigit))
    let hour :=
      match period with
      | some c => if (c == '下' || c == '晚') && hour < 12 then hour + 12 else hour
      | none => if hour ≤ 12 && hour < 12 then hour + 12 else hour
    some (hour, 0)
  | none => none

/-- A naive Python `datetime`, as far as the engine observes it: `days` is
the day count from a fixed Monday epoch (2001-01-01), so that Python's
`weekday()` (Monday = 0) is `days % 7`; microseconds are omitted because
every datetime the engine returns has had them zeroed by `replace`. -/
structure PyDateTime where
  days : Nat
  hour : Nat
  minute : Nat
  second : Nat
deriving Repr, DecidableEq

/-- `timedelta(days = k)` addition. -/
def addDays (d : PyDateTime) (k : Nat) : PyDateTime :=
  { d with days := d.days + k }

/-- Model of `datetime.replace(hour=h, minute=m, second=0, microsecond=0)`:
raises `ValueError` when the field values are out of range, exactly as
Python does (this is the only way the extractor can raise). -/
def replaceTime (d : PyDateTime) (h m : Nat) : Except (List Char) PyDateTime :=
  if 23 < h then .error "hour must be in 0..23".data
  else if 59 < m then .error "minute must be in 0..59".data
  else .ok ⟨d.days, h, m, 0⟩

/-- Decimal digits of `n` (fuelled worker). -/
def natDigitsAux : Nat → Nat → List Char
  | 0, _ => []
  | fuel + 1, n =>
    if n < 10 then [Char.ofNat (48 + n)]
    else natDigitsAux fuel (n / 10) ++ [Char.ofNat (48 + n % 10)]

/-- Decimal digit characters of `n`. -/
def natDigits (n : Nat) : List Char := natDigitsAux (n + 1) n

/-- Left-pad a digit string with zeros to the given width. -/
def padZ (w : Nat) (s : List Char) : List Char :=
  List.replicate (w - s.length) '0' ++ s

/-- Gregorian `(year, month, day)` of day number `n` counted from the
epoch 2001-01-01 (a Monday), via the standard civil-from-days algorithm. -/
def civilFromDays (n : Nat) : Nat × Nat × Nat :=
  let z := n + 11323 + 719468
  let era := z / 146097
  let doe := z % 146097
  let yoe := (doe - doe / 1460 + doe / 36524 - doe / 146096) / 365
  let y := yoe + era * 400
  let doy := doe - (365 * yoe + yoe / 4 - yoe / 100)
  let mp := (5 * doy + 2) / 153
  let d := doy - (153 * mp + 2) / 5 + 1
  let m := if mp < 10 then mp + 3 else mp - 9
  (if m ≤ 2 then y + 1 else y, m, d)

/-- Model of `datetime.isoformat()` for the datetimes the engine returns
(microsecond is always zero, so the format is `YYYY-MM-DDTHH:MM:SS`). -/
def isoformat (d : PyDateTime) : List Char :=
  let c := civilFromDays d.days
  padZ 4 (natDigits c.1) ++ "-".data ++ padZ 2 (natDigits c.2.1) ++ "-".data ++
    padZ 2 (natDigits c.2.2) ++ "T".data ++ padZ 2 (natDigits d.hour) ++ ":".data ++
    padZ 2 (natDigits d.minute) ++ ":".data ++ padZ 2 (natDigits d.second)

/-- The `weekday_map_en` dictionary of `_parse_relative_date`, in insertion
order (full names first, then abbreviations), as iterated by the loop. -/
def weekdayNamesEn : List (List Char × Nat) :=
  [("monday".data, 0), ("tuesday".data, 1), ("wednesday".data, 2), ("thursday".data, 3),
   ("friday".data, 4), ("saturday".data, 5), ("sunday".data, 6),
   ("mon".data, 0), ("tue".data, 1), ("wed".data, 2), ("thu".data, 3),
   ("fri".data, 4), ("sat".data, 5), ("sun".data, 6)]

/-- The `next <weekday>` loop of `_parse_relative_date`: the first dictionary
entry whose name occurs in the lowered text. -/
def firstWeekdayHit (tl : List Char) : Option Nat :=
  (weekdayNamesEn.find? fun p => isSubstr p.1 tl).map Prod.snd

/-- The secondary weekday chain of `_parse_relative_date` (lines 203-218),
reached only when the dictionary loop found no weekday name. -/
def secondaryWeekdayBase (now : PyDateTime) (tl : List Char) : Option PyDateTime :=
  let cw := now.days % 7
  if isSubstr "monday".data tl || isSubstr "mon".data tl then some (addDays now (7 - cw))
  else if isSubstr "tuesday".data tl || isSubstr "tue".data tl then some (addDays now (8 - cw))
  else if isSubstr "wednesday".data tl || isSubstr "wed".data tl then some (addDays now (9 - cw))
  else if isSubstr "thursday".data tl || isSubstr "thu".data tl then some (addDays now (10 - cw))
  else if isSubstr "friday".data tl || isSubstr "fri".data tl then some (addDays now (11 - cw))
  else if isSubstr "saturday".data tl || isSubstr "sat".data tl then some (addDays now (12 - cw))
  else if isSubstr "sunday".data tl || isSubstr "sun".data tl then some (addDays now (13 - cw))
  else none

/-- The pattern `(本周|下周)[一二三四五六日天]` from `_parse_relative_date`. -/
def cnWeekRE : RE :=
  .seq (.alt (litL "本周".data) (litL "下周".data))
    (.cls (fun c => "一二三四五六日天".data.contains c))

/-- The Chinese weekday map `{"一": 0, ..., "日": 6, "天": 6}`. -/
def cnWeekdayNum (c : Char) : Option Nat :=
  if c == '一' then some 0
  else if c == '二' then some 1
  else if c == '三' then some 2
  else if c == '四' then some 3
  else if c == '五' then some 4
  else if c == '六' then some 5
  else if c == '日' then some 6
  else if c == '天' then some 6
  else none

/-- The base-date computation of `_parse_relative_date` (lines 184-234):
literal day offsets, then the English `next <weekday>` branch, then the
Chinese `本周/下周<weekday>` branch. -/
def relativeBase (now : PyDateTime) (text : List Char) : Option PyDateTime :=
  let tl := pyLower text
  if isSubstr "今天".data text || isSubstr "today".data tl then some now
  else if isSubstr "明天".data text || isSubstr "tomorrow".data tl then some (addDays now 1)
  else if isSubstr "后天".data text || isSubstr "day after tomorrow".data tl then
    some (addDays now 2)
  else if isSubstr "next".data tl then
    match firstWeekdayHit tl with
    | some dayNum =>
      let cw := now.days % 7
      let delta := (dayNum + 7 - cw) % 7
      some (addDays now (if delta == 0 then 7 else delta))
    | none => secondaryWeekdayBase now tl
  else
    match research cnWeekRE text with
    | some (i, _) =>
      let consumed := seg text i 3
      let target := consumed.drop 2
      match target.head? with
      | some tc =>
        match cnWeekdayNum tc with
        | some tw =>
          let cw := now.days % 7
          if isPre "本周".data consumed then
            some (addDays now (if tw < cw then tw + 7 - cw else tw - cw))
          else
            some (addDays now (tw + 7 - cw))
        | none => none
      | none => none
    | none => none

/-- Model of `_parse_relative_date`: combine the base date with the
time-of-day hint (default 23:59); `datetime.replace` can raise, which the
`Except` propagates. -/
def parse_relative_date (now : PyDateTime) (text : List Char) :
    Except (List Char) (Option PyDateTime) :=
  match relativeBase now text with
  | none => .ok none
  | some base =>
    match parse_time_hint text with
    | some (h, m) => (replaceTime base h m).map some
    | none => (replaceTime base 23 59).map some

/-- The optional apostrophe fragment `\'?`. -/
def aposOpt : RE := optRE (.cls (fun c => c == apos))

/-- The fragment `it\'?s`. -/
def itsRE : RE := .seq (litL "it".data) (.seq aposOpt (litL "s".data))

/-- The fragment `that\'?s`. -/
def thatsRE : RE := .seq (litL "that".data) (.seq aposOpt (litL "s".data))

/-- Cleanup pattern `今天|明天|后天|本周[一二三四五六日天]|下周[一二三四五六日天]`. -/
def cleanRE1 : RE :=
  altList [litL "今天".data, litL "明天".data, litL "后天".data,
    .seq (litL "本周".data) (.cls (fun c => "一二三四五六日天".data.contains c)),
    .seq (litL "下周".data) (.cls (fun c => "一二三四五六日天".data.contains c))]

/-- Cleanup pattern
`\b(today|tomorrow|day after tomorrow|next (monday|...|sunday|week))\b`. -/
def cleanRE2 : RE :=
  .seq .bnd (.seq
    (altList [litL "today".data, litL "tomorrow".data, litL "day after tomorrow".data,
      .seq (litL "next ".data)
        (altList [litL "monday".data, litL "tuesday".data, litL "wednesday".data,
          litL "thursday".data, litL "friday".data, litL "saturday".data,
          litL "sunday".data, litL "week".data])])
    .bnd)

/-- Cleanup pattern `(上午|下午|晚上)?\s*\d{1,2}点` (same as the time hint). -/
def cleanRE3 : RE := cnTimeRE

/-- Cleanup pattern `\b\d{1,2}\s*(?:am|pm|a\.m\.|p\.m\.)\b`. -/
def cleanRE4 : RE :=
  .seq .bnd (.seq rep12d (.seq wsStar (.seq
    (altList [litL "am".data, litL "pm".data, litL "a.m.".data, litL "p.m.".data]) .bnd)))

/-- Cleanup pattern `\b\d{1,2}:\d{2}\s*(?:am|pm)?\b`. -/
def cleanRE5 : RE :=
  .seq .bnd (.seq rep12d (.seq (lchar ':') (.seq (.cls Char.isDigit)
    (.seq (.cls Char.isDigit) (.seq wsStar (.seq
      (optRE (.alt (litL "am".data) (litL "pm".data))) .bnd))))))

/-- Cleanup pattern `\bat\s+\d{1,2}\s*(?:am|pm)?\b`. -/
def cleanRE6 : RE :=
  .seq .bnd (.seq (litL "at".data) (.seq wsPlus (.seq rep12d (.seq wsStar (.seq
    (optRE (.alt (litL "am".data) (litL "pm".data))) .bnd)))))

/-- Cleanup pattern `优先级高|高优先级|很重要|紧急|尽快|优先级低|低优先级|不急|有空再`. -/
def cleanRE7 : RE :=
  altList [litL "优先级高".data, litL "高优先级".data, litL "很重要".data, litL "紧急".data,
    litL "尽快".data, litL "优先级低".data, litL "低优先级".data, litL "不急".data,
    litL "有空再".data]

/-- Cleanup pattern
`\b(urgent|important|critical|asap|high priority|low priority|priority (high|low))\b`. -/
def cleanRE8 : RE :=
  .seq .bnd (.seq
    (altList [litL "urgent".data, litL "important".data, litL "critical".data,
      litL "asap".data, litL "high priority".data, litL "low priority".data,
      .seq (litL "priority ".data) (.alt (litL "high".data) (litL "low".data))])
    .bnd)

/-- Cleanup pattern `\b(it\'?s\s+)?(very\s+)?(important|urgent)\b`. -/
def cleanRE9 : RE :=
  .seq .bnd (.seq (optRE (.seq itsRE wsPlus)) (.seq (optRE (.seq (litL "very".data) wsPlus))
    (.seq (.alt (litL "important".data) (litL "urgent".data)) .bnd)))

/-- Cleanup pattern `\b(remind me to|remember to|don\'?t forget to|make sure to)\b`. -/
def cleanRE10 : RE :=
  .seq .bnd (.seq
    (altList [litL "remind me to".data, litL "remember to".data,
      .seq (litL "don".data) (.seq aposOpt (litL "t forget to".data)),
      litL "make sure to".data])
    .bnd)

/-- Cleanup pattern `\b(to|at|in|on|for|with|by)\s+(it\'?s|the|a|an|this|that)\b`. -/
def cleanRE11 : RE :=
  .seq .bnd (.seq
    (altList [litL "to".data, litL "at".data, litL "in".data, litL "on".data,
      litL "for".data, litL "with".data, litL "by".data])
    (.seq wsPlus (.seq
      (altList [itsRE, litL "the".data, litL "a".data, litL "an".data,
        litL "this".data, litL "that".data])
      .bnd)))

/-- Cleanup pattern `\b(it\'?s|that\'?s|this is)\s+(important|urgent|critical)\b`. -/
def cleanRE12 : RE :=
  .seq .bnd (.seq (altList [itsRE, thatsRE, litL "this is".data])
    (.seq wsPlus (.seq
      (altList [litL "important".data, litL "urgent".data, litL "critical".data])
      .bnd)))

/-- Cleanup pattern `[，,。.!！]`. -/
def cleanRE13 : RE := .cls (fun c => "，,。.!！".data.contains c)

/-- Second stop-word pattern (line 272 of the source):
`\b(at|in|on|for|with|by|to)\s+(it\'?s|the|a|an|this|that)\b`. -/
def cleanRE15 : RE :=
  .seq .bnd (.seq
    (altList [litL "at".data, litL "in".data, litL "on".data, litL "for".data,
      litL "with".data, litL "by".data, litL "to".data])
    (.seq wsPlus (.seq
      (altList [itsRE, litL "the".data, litL "a".data, litL "an".data,
        litL "this".data, litL "that".data])
      .bnd)))

/-- The erase-markers / collapse-whitespace / strip pipeline of
`_clean_title` (everything before the final `title or text`). -/
def cleanCore (text : List Char) : List Char :=
  let t := text
  let t := subAll cleanRE1 [] t
  let t := subAll cleanRE2 [] t
  let t := subAll cleanRE3 [] t
  let t := subAll cleanRE4 [] t
  let t := subAll cleanRE5 [] t
  let t := subAll cleanRE6 [] t
  let t := subAll cleanRE7 [] t
  let t := subAll cleanRE8 [] t
  let t := subAll cleanRE9 [] t
  let t := subAll cleanRE10 [] t
  let t := subAll cleanRE11 [] t
  let t := subAll cleanRE12 [] t
  let t := subAll cleanRE13 [] t
  let t := subAll wsPlus " ".data t
  let t := subAll cleanRE15 [] t
  pyStrip t

/-- Model of `_clean_title`: run the cleanup pipeline; `title or text`
falls back to the original input when the cleaned string is empty. -/
def clean_title (text : List Char) : List Char :=
  let title := cleanCore text
  if title.isEmpty then text else title

/-- The `TaskPriority` enum (`src/models/schemas.py`). -/
inductive TaskPriority where
  | low
  | medium
  | high
deriving Repr, DecidableEq

/-- The `.value` of a `TaskPriority` member. -/
def prioVal : TaskPriority → List Char
  | .low => "low".data
  | .medium => "medium".data
  | .high => "high".data

/-- The content string `f"{title} {description or ''}".lower()` shared by
the fallback priority and tag heuristics. -/
def contentOf (title : List Char) (desc : Option (List Char)) : List Char :=
  pyLower (title ++ ' ' :: desc.getD [])

/-- Whether any keyword of the list occurs in the content. -/
def anyKw (kws : List (List Char)) (content : List Char) : Bool :=
  kws.any fun w => isSubstr w content

/-- The `high_keywords` list of `_get_fallback_priority`. -/
def highKeywords : List (List Char) :=
  ["紧急".data, "重要".data, "很重要".data, "尽快".data, "立即".data, "必须".data,
   "优先级高".data, "高优先级".data, "urgent".data, "important".data, "critical".data,
   "asap".data, "as soon as possible".data, "high priority".data, "priority high".data]

/-- The `low_keywords` list of `_get_fallback_priority`. -/
def lowKeywords : List (List Char) :=
  ["不急".data, "有空".data, "随意".data, "休闲".data, "优先级低".data, "低优先级".data,
   "low priority".data, "priority low".data, "whenever".data, "optional".data,
   "leisure".data]

/-- Reasoning string of the fallback high branch. -/
def highReason : List Char := "Based on keywords: contains urgent/important words".data

/-- Reasoning string of the fallback low branch. -/
def lowReason : List Char := "Based on keywords: contains low priority words".data

/-- Reasoning string of the fallback medium branch. -/
def medReason : List Char := "Based on keywords: default medium priority".data

/-- Model of `_get_fallback_priority`: keyword scan, high before low,
default medium. -/
def get_fallback_priority (title : List Char) (desc : Option (List Char)) :
    TaskPriority × List Char :=
  let content := contentOf title desc
  if anyKw highKeywords content then (.high, highReason)
  else if anyKw lowKeywords content then (.low, lowReason)
  else (.medium, medReason)

/-- The `work_keywords` list of `_get_fallback_tags` (the source lists
`项目` twice; the duplicate is kept). -/
def workKeywords : List (List Char) :=
  ["工作".data, "项目".data, "报告".data, "会议".data, "任务".data, "项目".data,
   "代码".data, "审查".data, "开发".data, "设计".data, "work".data, "project".data,
   "report".data, "meeting".data, "task".data, "code".data, "review".data,
   "develop".data, "development".data, "design".data, "implement".data,
   "implementation".data, "bug".data, "fix".data, "feature".data, "deploy".data,
   "deployment".data, "test".data, "testing".data, "document".data,
   "documentation".data, "plan".data, "planning".data, "analysis".data]

/-- The `study_keywords` list. -/
def studyKeywords : List (List Char) :=
  ["学习".data, "课程".data, "作业".data, "考试".data, "培训".data, "教程".data,
   "learn".data, "study".data, "course".data, "homework".data, "exam".data,
   "test".data, "training".data, "tutorial".data]

/-- The `shopping_keywords` list. -/
def shoppingKeywords : List (List Char) :=
  ["购物".data, "买".data, "超市".data, "商店".data, "采购".data, "shopping".data,
   "buy".data, "purchase".data, "shop".data, "grocery".data, "store".data]

/-- The `health_keywords` list. -/
def healthKeywords : List (List Char) :=
  ["健康".data, "运动".data, "锻炼".data, "医院".data, "医生".data, "健身".data,
   "health".data, "exercise".data, "workout".data, "hospital".data, "doctor".data,
   "fitness".data, "gym".data]

/-- The `personal_keywords` list. -/
def personalKeywords : List (List Char) :=
  ["个人".data, "生活".data, "家庭".data, "朋友".data, "社交".data, "personal".data,
   "life".data, "family".data, "friend".data, "social".data, "home".data]

/-- The `finance_keywords` list. -/
def financeKeywords : List (List Char) :=
  ["财务".data, "账单".data, "支付".data, "银行".data, "投资".data, "finance".data,
   "bill".data, "payment".data, "bank".data, "investment".data, "money".data]

/-- The `travel_keywords` list. -/
def travelKeywords : List (List Char) :=
  ["旅行".data, "旅游".data, "出差".data, "航班".data, "酒店".data, "travel".data,
   "trip".data, "flight".data, "hotel".data, "vacation".data, "journey".data]

/-- Model of `_get_fallback_tags`: category keyword scan with the work
refinement sub-match, default inference, and the final cap to 3 labels. -/
def get_fallback_tags (title : List Char) (desc : Option (List Char)) :
    List (List Char) :=
  let content := contentOf title desc
  let t1 : List (List Char) :=
    if anyKw workKeywords content then
      if anyKw ["meeting".data, "会议".data, "conference".data, "call".data] content then
        ["Meeting".data]
      else if anyKw ["code".data, "代码".data, "programming".data, "program".data,
          "coding".data] content then
        ["Code".data]
      else if anyKw ["review".data, "审查".data, "check".data, "检查".data] content then
        ["Review".data]
      else if anyKw ["project".data, "项目".data] content then ["Project".data]
      else if anyKw ["report".data, "报告".data] content then ["Report".data]
      else ["Work".data]
    else []
  let t2 := if anyKw studyKeywords content then ["Study".data] else []
  let t3 := if anyKw shoppingKeywords content then ["Shopping".data] else []
  let t4 := if anyKw healthKeywords content then ["Health".data] else []
  let t5 := if anyKw personalKeywords content then ["Personal".data] else []
  let t6 := if anyKw financeKeywords content then ["Finance".data] else []
  let t7 := if anyKw travelKeywords content then ["Travel".data] else []
  let simple := t1 ++ t2 ++ t3 ++ t4 ++ t5 ++ t6 ++ t7
  let simple :=
    if simple.isEmpty then
      if isSubstr "meeting".data content || isSubstr "会议".data content then
        ["Meeting".data]
      else if isSubstr "code".data content || isSubstr "代码".data content then
        ["Code".data]
      else if isSubstr "review".data content || isSubstr "审查".data content then
        ["Review".data]
      else ["Work".data]
    else simple
  if simple.isEmpty then ["Other".data] else simple.take 3

/-- Model of `_normalize_priority`: strip/lower, table lookup, fuzzy CJK
match; an unrecognized non-empty value is returned unchanged (this is what
the source does, its docstring notwithstanding). -/
def normalize_priority (value : Option (List Char)) : Option (List Char) :=
  match value with
  | none => none
  | some v =>
    if v.isEmpty then none
    else
      let normalized := pyLower (pyStrip v)
      if normalized ∈ ["high".data, "h".data, "高".data, "高优先级".data, "优先级高".data] then
        some "high".data
      else if normalized ∈ ["medium".data, "med".data, "中".data, "中优先级".data,
          "优先级中".data] then
        some "medium".data
      else if normalized ∈ ["low".data, "l".data, "低".data, "低优先级".data,
          "优先级低".data] then
        some "low".data
      else if isSubstr "高".data normalized then some "high".data
      else if isSubstr "低".data normalized then some "low".data
      else if isSubstr "中".data normalized then some "medium".data
      else some normalized

/-- Outcome of invoking one provider's operation: the provider either
raises a `ProviderError` or returns a value. -/
inductive ProvOutcome (α : Type) where
  | raises
  | returns (a : α)

/-- Model of `AIService._try_providers`: iterate the configured providers
in order, return the first non-raising provider's result immediately,
`none` when every provider raises or the list is empty. -/
def try_providers {α : Type} : List (ProvOutcome α) → Option α
  | [] => none
  | .returns a :: _ => some a
  | .raises :: rest => try_providers rest

/-- Model of `AIService.suggest_tags`: the Python `if result:` treats an
empty list from a successful provider as falsy, so it also falls back. -/
def suggest_tags (ps : List (ProvOutcome (List (List Char))))
    (title : List Char) (desc : Option (List Char)) : List (List Char) :=
  match try_providers ps with
  | some r => if r.isEmpty then get_fallback_tags title desc else r
  | none => get_fallback_tags title desc

/-- The fallback subtask list of `AIService.breakdown_task`. -/
def fallbackBreakdown (d : List Char) : List (List Char) :=
  ["准备 ".data ++ d, "执行 ".data ++ d, "完成 ".data ++ d]

/-- Model of `AIService.breakdown_task` (same falsy check as the tags). -/
def breakdown_task (ps : List (ProvOutcome (List (List Char))))
    (d : List Char) : List (List Char) :=
  match try_providers ps with
  | some r => if r.isEmpty then fallbackBreakdown d else r
  | none => fallbackBreakdown d

/-- Model of `AIService.recommend_priority`: a provider's `(priority,
reasoning)` tuple is always truthy, so a successful provider's result is
returned verbatim; only on total failure is the keyword fallback used. -/
def recommend_priority (ps : List (ProvOutcome (TaskPriority × List Char)))
    (title : List Char) (desc : Option (List Char)) : TaskPriority × List Char :=
  match try_providers ps with
  | some r => r
  | none => get_fallback_priority title desc

/-- The dictionary a provider's `parse_natural_language` returns (records
model the nonempty dicts the providers produce, hence truthy under the
Python `if result:` check). -/
structure ProvParse where
  title : List Char
  description : Option (List Char)
  priority : Option (List Char)
  due_date : Option (List Char)
  tags : List (List Char)
deriving Repr, DecidableEq

/-- The dictionary `AIService.parse_natural_language` returns. -/
structure ParsedTask where
  title : List Char
  description : Option (List Char)
  priority : List Char
  due_date : Option (List Char)
  tags : List (List Char)
deriving Repr, DecidableEq

/-- The priority post-processing `parse_natural_language` applies to a
provider result (source lines 331-336): force-override from the keyword
scan of the input when the scan is not medium, then normalize, with
`... or "medium"` turning a falsy normalization result into medium. -/
def postProcessPriority (text : List Char) (provPrio : Option (List Char)) : List Char :=
  let forced := (get_fallback_priority text none).1
  let prio0 : Option (List Char) :=
    if forced ≠ .medium then some (prioVal forced) else provPrio
  match normalize_priority prio0 with
  | some v => if v.isEmpty then "medium".data else v
  | none => "medium".data

/-- Model of `AIService.parse_natural_language`: on a provider result,
post-process the returned priority; on total provider failure, build the
result from the deterministic extractor (whose date resolution can raise,
propagated by the `Except`). -/
def parse_natural_language (now : PyDateTime) (ps : List (ProvOutcome ProvParse))
    (text : List Char) : Except (List Char) ParsedTask :=
  match try_providers ps with
  | some result =>
    .ok { title := result.title, description := result.description,
          priority := postProcessPriority text result.priority,
          due_date := result.due_date, tags := result.tags }
  | none =>
    let prio := (get_fallback_priority text none).1
    match parse_relative_date now text with
    | .error e => .error e
    | .ok due =>
      .ok { title := clean_title text, description := none, priority := prioVal prio,
            due_date := due.map isoformat, tags := [] }

/-! ## Helper lemmas -/

/-- A list is a prefix of itself. -/
theorem isPre_refl (l : List Char) : isPre l l = true := by
  induction l with
  | nil => rfl
  | cons c r ih => simp [isPre, ih]

/-- A list occurs as a substring at the end of any extension to its left. -/
theorem isSubstr_append_left (pre d : List Char) : isSubstr d (pre ++ d) = true := by
  induction pre with
  | nil =>
    cases d with
    | nil => rfl
    | cons c r => simp [isSubstr, isPre_refl]
  | cons c r ih => simp [isSubstr, ih]

/-- The fallback priority is high whenever a high keyword occurs. -/
theorem fallback_priority_high {t : List Char} {d : Option (List Char)}
    (h : anyKw highKeywords (contentOf t d) = true) :
    get_fallback_priority t d = (.high, highReason) := by
  simp [get_fallback_priority, h]

/-- The fallback priority is low when no high keyword but a low keyword occurs. -/
theorem fallback_priority_low {t : List Char} {d : Option (List Char)}
    (h1 : anyKw highKeywords (contentOf t d) = false)
    (h2 : anyKw lowKeywords (contentOf t d) = true) :
    get_fallback_priority t d = (.low, lowReason) := by
  simp [get_fallback_priority, h1, h2]

/-- The fallback priority defaults to medium when no keyword occurs. -/
theorem fallback_priority_med {t : List Char} {d : Option (List Char)}
    (h1 : anyKw highKeywords (contentOf t d) = false)
    (h2 : anyKw lowKeywords (contentOf t d) = false) :
    get_fallback_priority t d = (.medium, medReason) := by
  simp [get_fallback_priority, h1, h2]

/-- Every weekday number produced by the English weekday scan is below 7. -/
theorem firstWeekdayHit_lt {tl : List Char} {w : Nat}
    (h : firstWeekdayHit tl = some w) : w < 7 := by
  unfold firstWeekdayHit at h
  cases hf : weekdayNamesEn.find? fun p => isSubstr p.1 tl with
  | none => rw [hf] at h; cases h
  | some p =>
    rw [hf] at h
    have hm : p ∈ weekdayNamesEn := List.mem_of_find?_eq_some hf
    have hlt : ∀ q ∈ weekdayNamesEn, q.2 < 7 := by decide
    have := hlt p hm
    simp only [Option.map_some', Option.some.injEq] at h
    omega

/-- The priority post-processing yields high whenever the input text
contains a high-priority keyword, whatever the provider returned. -/
theorem postProcessPriority_high {text : List Char} (pp : Option (List Char))
    (h : anyKw highKeywords (contentOf text none) = true) :
    postProcessPriority text pp = "high".data := by
  have hf : get_fallback_priority text none = (.high, highReason) := fallback_priority_high h
  have hn : normalize_priority (some "high".data) = some "high".data := rfl
  simp [postProcessPriority, hf, prioVal, hn]

/-- Unfolding equation for `parse_natural_language` on the provider path. -/
theorem parse_natural_language_provider (now : PyDateTime)
    (ps : List (ProvOutcome ProvParse)) (text : List Char) (r : ProvParse)
    (h : try_providers ps = some r) :
    parse_natural_language now ps text =
      .ok ⟨r.title, r.description, postProcessPriority text r.priority,
        r.due_date, r.tags⟩ := by
  unfold parse_natural_language
  rw [h]

/-- Unfolding equation for `parse_natural_language` on the fallback path. -/
theorem parse_natural_language_fallback (now : PyDateTime)
    (ps : List (ProvOutcome ProvParse)) (text : List Char)
    (h : try_providers ps = none) :
    parse_natural_language now ps text =
      match parse_relative_date now text with
      | .error e => .error e
      | .ok due =>
        .ok ⟨clean_title text, none, prioVal (get_fallback_priority text none).1,
          due.map isoformat, []⟩ := by
  unfold parse_natural_language
  rw [h]

/-! ## Theorems for the claims -/

/-- Claim C5: the Extractor's priority inference checks high-priority
triggers before low-priority triggers — any high trigger yields high (even
alongside a low trigger), a low trigger without a high one yields low, and
no trigger yields medium. -/
theorem priority_inference_order (t : List Char) (d : Option (List Char)) :
    (anyKw highKeywords (contentOf t d) = true →
      get_fallback_priority t d = (.high, highReason)) ∧
    (anyKw highKeywords (contentOf t d) = false →
      anyKw lowKeywords (contentOf t d) = true →
      get_fallback_priority t d = (.low, lowReason)) ∧
    (anyKw highKeywords (contentOf t d) = false →
      anyKw lowKeywords (contentOf t d) = false →
      get_fallback_priority t d = (.medium, medReason)) :=
  ⟨fun h => fallback_priority_high h,
   fun h1 h2 => fallback_priority_low h1 h2,
   fun h1 h2 => fallback_priority_med h1 h2⟩

/-- Witness for C5: a text with both a high and a low trigger resolves to
high, a text with only a low trigger to low, a trigger-free text to medium. -/
theorem priority_inference_order_witness :
    get_fallback_priority "urgent whenever task".data none = (.high, highReason) ∧
    get_fallback_priority "whenever task".data none = (.low, lowReason) ∧
    get_fallback_priority "walk dog".data none = (.medium, medReason) :=
  ⟨(priority_inference_order "urgent whenever task".data none).1 (by decide),
   (priority_inference_order "whenever task".data none).2.1 (by decide) (by decide),
   (priority_inference_order "walk dog".data none).2.2 (by decide) (by decide)⟩

/-- Claim C1 is refuted: `recommend_priority` returns a successful
provider's result verbatim, with no priority-keyword override — here the
title contains the high trigger `urgent`, yet the provider's `low` wins. -/
theorem recommend_priority_no_override_cex :
    recommend_priority [ProvOutcome.returns (TaskPriority.low, "model reasoning".data)]
      "urgent meeting".data none = (TaskPriority.low, "model reasoning".data) ∧
    anyKw highKeywords (contentOf "urgent meeting".data none) = true ∧
    TaskPriority.low ≠ TaskPriority.high :=
  ⟨rfl, by decide, by decide⟩

/-- Claim C1 as amended: for text containing a high-priority trigger,
`parse_natural_language` stores priority high on both the provider path
(the keyword scan overrides the provider) and the fallback path (when the
extractor does not raise); `recommend_priority`, by contrast, applies no
override — it returns a successful provider's tuple verbatim and yields
high only on its fallback path. -/
theorem priority_override_amended (now : PyDateTime) (ps : List (ProvOutcome ProvParse))
    (ps2 : List (ProvOutcome (TaskPriority × List Char))) (text t : List Char)
    (d : Option (List Char)) (r : ProvParse) (pr : TaskPriority × List Char) :
    (try_providers ps = some r → anyKw highKeywords (contentOf text none) = true →
      parse_natural_language now ps text =
        .ok ⟨r.title, r.description, "high".data, r.due_date, r.tags⟩) ∧
    (try_providers ps = none → anyKw highKeywords (contentOf text none) = true →
      ∀ p, parse_natural_language now ps text = .ok p → p.priority = "high".data) ∧
    (try_providers ps2 = some pr → recommend_priority ps2 t d = pr) ∧
    (try_providers ps2 = none → anyKw highKeywords (contentOf t d) = true →
      recommend_priority ps2 t d = (.high, highReason)) := by
  refine ⟨?_, ?_, ?_, ?_⟩
  · intro h hh
    rw [parse_natural_language_provider now ps text r h,
      postProcessPriority_high r.priority hh]
  · intro h hh p hp
    rw [parse_natural_language_fallback now ps text h] at hp
    cases hrd : parse_relative_date now text with
    | error e => rw [hrd] at hp; cases hp
    | ok due =>
      rw [hrd] at hp
      simp only [Except.ok.injEq] at hp
      rw [← hp]
      show prioVal (get_fallback_priority text none).1 = "high".data
      rw [fallback_priority_high hh]
      rfl
  · intro h
    simp [recommend_priority, h]
  · intro h hh
    simp [recommend_priority, h, fallback_priority_high hh]

/-- Witness for the amended C1 at concrete inputs: the provider path and
the fallback path of `parse` both store high for a text containing
`urgent`; `recommend_priority` echoes a successful provider and falls back
to the keyword scan only when every provider raises. -/
theorem priority_override_amended_witness :
    parse_natural_language ⟨0, 8, 30, 11⟩
      [ProvOutcome.returns ⟨"t".data, none, some "low".data, none, []⟩]
      "urgent task".data =
      .ok ⟨"t".data, none, "high".data, none, []⟩ ∧
    (⟨"task".data, none, "high".data, none, ([] : List (List Char))⟩ : ParsedTask).priority =
      "high".data ∧
    recommend_priority [ProvOutcome.returns (TaskPriority.medium, "m".data)]
      "urgent task".data none = (TaskPriority.medium, "m".data) ∧
    recommend_priority [ProvOutcome.raises] "urgent task".data none =
      (TaskPriority.high, highReason) := by
  refine ⟨?_, ?_, ?_, ?_⟩
  · exact (priority_override_amended ⟨0, 8, 30, 11⟩
      [ProvOutcome.returns ⟨"t".data, none, some "low".data, none, []⟩] []
      "urgent task".data "urgent task".data none
      ⟨"t".data, none, some "low".data, none, []⟩ (.medium, "m".data)).1 rfl (by decide)
  · exact (priority_override_amended ⟨0, 8, 30, 11⟩ [] []
      "urgent task".data "urgent task".data none
      ⟨"t".data, none, some "low".data, none, []⟩ (.medium, "m".data)).2.1 rfl (by decide)
      ⟨"task".data, none, "high".data, none, []⟩ rfl
  · exact (priority_override_amended ⟨0, 8, 30, 11⟩ []
      [ProvOutcome.returns (TaskPriority.medium, "m".data)]
      "urgent task".data "urgent task".data none
      ⟨"t".data, none, some "low".data, none, []⟩ (.medium, "m".data)).2.2.1 rfl
  · exact (priority_override_amended ⟨0, 8, 30, 11⟩ [] [ProvOutcome.raises]
      "urgent task".data "urgent task".data none
      ⟨"t".data, none, some "low".data, none, []⟩ (.medium, "m".data)).2.2.2 rfl (by decide)

/-- Claim C2 is violated by the code: the time-hint scan accepts the
out-of-range hour 25 from the text `tomorrow 25pm`, and the subsequent
`datetime.replace` raises `ValueError`, which propagates out of
`parse_natural_language` — the extractor is not a total fallback. -/
theorem parse_raises_on_invalid_hour :
    parse_natural_language ⟨0, 8, 30, 11⟩ [] "tomorrow 25pm".data =
      .error "hour must be in 0..23".data ∧
    parse_time_hint "tomorrow 25pm".data = some (25, 0) ∧
    parse_relative_date ⟨0, 8, 30, 11⟩ "tomorrow 25pm".data =
      .error "hour must be in 0..23".data :=
  ⟨rfl, rfl, rfl⟩

/-- Claim C3 is refuted: a provider that succeeds with an empty tag list is
treated as falsy by `suggest_tags`, so the Extractor is invoked even though
a provider's operation succeeded, and the first successful provider's
result is not returned. -/
theorem first_success_falsy_cex :
    try_providers [ProvOutcome.returns ([] : List (List Char))] = some [] ∧
    suggest_tags [ProvOutcome.returns ([] : List (List Char))] "x".data none =
      ["Work".data] ∧
    (["Work".data] : List (List Char)) ≠ [] :=
  ⟨rfl, rfl, by decide⟩

/-- Claim C3 as amended: the provider loop itself returns the first
non-raising provider's result without consulting the rest, and a public
operation such as `suggest_tags` returns that result when it is truthy
(non-empty); the Extractor is invoked exactly when every provider raises,
the list is empty, or the first successful result is falsy. -/
theorem first_success_amended (ps rest : List (ProvOutcome (List (List Char))))
    (r : List (List Char)) (t : List Char) (d : Option (List Char)) :
    (try_providers (ProvOutcome.returns r :: rest) = some r) ∧
    (try_providers ps = some r → r ≠ [] → suggest_tags ps t d = r) ∧
    (try_providers ps = none → suggest_tags ps t d = get_fallback_tags t d) ∧
    (try_providers ps = some [] → suggest_tags ps t d = get_fallback_tags t d) := by
  refine ⟨rfl, ?_, ?_, ?_⟩
  · intro h hr
    simp [suggest_tags, h, hr]
  · intro h
    simp [suggest_tags, h]
  · intro h
    simp [suggest_tags, h]

/-- Witness for the amended C3 at concrete inputs. -/
theorem first_success_amended_witness :
    try_providers [ProvOutcome.returns (["A".data] : List (List Char))] =
      some ["A".data] ∧
    suggest_tags [ProvOutcome.raises, ProvOutcome.returns ["A".data]] "x".data none =
      ["A".data] ∧
    suggest_tags ([ProvOutcome.raises] : List (ProvOutcome (List (List Char))))
      "y".data none = get_fallback_tags "y".data none ∧
    suggest_tags [ProvOutcome.returns ([] : List (List Char))] "y".data none =
      get_fallback_tags "y".data none := by
  refine ⟨?_, ?_, ?_, ?_⟩
  · exact (first_success_amended [] [] ["A".data] "x".data none).1
  · exact (first_success_amended [ProvOutcome.raises, ProvOutcome.returns ["A".data]]
      [] ["A".data] "x".data none).2.1 rfl (by decide)
  · exact (first_success_amended [ProvOutcome.raises] [] [] "y".data none).2.2.1 rfl
  · exact (first_success_amended [ProvOutcome.returns []] [] [] "y".data none).2.2.2 rfl

/-- Claim C4 is violated by the code: `_normalize_priority` returns an
unrecognized non-empty value unchanged (contradicting its own docstring),
and `... or "medium"` only catches falsy values, so a provider priority
such as `urgent` is stored verbatim and the stored priority is not one of
low/medium/high. -/
theorem priority_not_normalized :
    parse_natural_language ⟨0, 8, 30, 11⟩
      [ProvOutcome.returns ⟨"buy milk".data, none, some "urgent".data, none, []⟩]
      "buy milk".data =
      .ok ⟨"buy milk".data, none, "urgent".data, none, []⟩ ∧
    normalize_priority (some "urgent".data) = some "urgent".data ∧
    "urgent".data ∉ [prioVal .low, prioVal .medium, prioVal .high] ∧
    normalize_priority (some "高".data) = some "high".data ∧
    normalize_priority (some "HIGH".data) = some "high".data ∧
    normalize_priority (some "h".data) = some "high".data :=
  ⟨rfl, rfl, by decide, rfl, rfl, rfl⟩

/-- Claim C6 is refuted: title cleanup is not idempotent.  Erasing the
inner occurrence of `紧急` in `开会紧紧急急` concatenates the outer
characters into a fresh `紧急`, which only a second cleanup pass removes. -/
theorem clean_title_not_idempotent_cex :
    clean_title (clean_title "开会紧紧急急".data) ≠ clean_title "开会紧紧急急".data ∧
    clean_title "开会紧紧急急".data = "开会紧急".data ∧
    clean_title "开会紧急".data = "开会".data := by
  refine ⟨?_, rfl, rfl⟩
  decide

/-- Claim C6 as amended: title cleanup is idempotent on every input whose
cleaned form is itself fixed by the erasure pipeline — that is, whenever
the marker-erasure passes do not fire again on the cleaned title (the
counterexample shows erasure can otherwise create a fresh marker). -/
theorem clean_title_idempotent_amended (t : List Char)
    (h : cleanCore (clean_title t) = clean_title t) :
    clean_title (clean_title t) = clean_title t := by
  have he : clean_title (clean_title t) =
      (if (cleanCore (clean_title t)).isEmpty then clean_title t
       else cleanCore (clean_title t)) := rfl
  rw [he, h]
  split <;> rfl

/-- Witness for the amended C6 at a concrete input. -/
theorem clean_title_idempotent_amended_witness :
    clean_title (clean_title "a".data) = clean_title "a".data :=
  clean_title_idempotent_amended "a".data (by decide)

/-- Claim C7 is refuted on the empty input: cleaning the empty string
returns the empty string, so title cleanup can return an empty title. -/
theorem clean_title_empty_cex :
    clean_title ([] : List Char) = [] ∧ ([] : List Char).isEmpty = true :=
  ⟨rfl, rfl⟩

/-- Claim C7 as amended: when the erasure pipeline leaves an empty string,
the original input is returned unmodified; consequently the cleaned title
is empty only when the input itself is empty (never empty for a nonempty
input). -/
theorem clean_title_nonempty_amended (t : List Char) :
    (cleanCore t = [] → clean_title t = t) ∧ (t ≠ [] → clean_title t ≠ []) := by
  constructor
  · intro h
    have he : clean_title t =
        (if (cleanCore t).isEmpty then t else cleanCore t) := rfl
    rw [he, h]
    rfl
  · intro ht
    have he : clean_title t =
        (if (cleanCore t).isEmpty then t else cleanCore t) := rfl
    rw [he]
    split
    · exact ht
    · rename_i hne
      intro hc
      rw [hc] at hne
      exact hne rfl

/-- Witness for the amended C7 at a concrete input whose markers erase to
nothing. -/
theorem clean_title_nonempty_amended_witness :
    clean_title "紧急".data = "紧急".data ∧ clean_title "紧急".data ≠ [] :=
  ⟨(clean_title_nonempty_amended "紧急".data).1 (by decide),
   (clean_title_nonempty_amended "紧急".data).2 (by decide)⟩

/-- Claim C8: a `next <weekday>` input (one that reaches the English
next-weekday rule: no today/tomorrow/day-after cue, `next` present, a
weekday name found by the dictionary scan) resolves to the next occurrence
of that weekday strictly after today — the offset is between 1 and 7 and
lands on the scanned weekday, with a zero raw offset forced to +7. -/
theorem next_weekday_strictly_future (now : PyDateTime) (text : List Char) (w : Nat)
    (h1 : (isSubstr "今天".data text || isSubstr "today".data (pyLower text)) = false)
    (h2 : (isSubstr "明天".data text || isSubstr "tomorrow".data (pyLower text)) = false)
    (h3 : (isSubstr "后天".data text ||
      isSubstr "day after tomorrow".data (pyLower text)) = false)
    (h4 : isSubstr "next".data (pyLower text) = true)
    (h5 : firstWeekdayHit (pyLower text) = some w) :
    ∃ k, relativeBase now text = some (addDays now k) ∧ 1 ≤ k ∧ k ≤ 7 ∧
      (now.days + k) % 7 = w := by
  have hw : w < 7 := firstWeekdayHit_lt h5
  have hb : relativeBase now text =
      some (addDays now
        (if (w + 7 - now.days % 7) % 7 == 0 then 7 else (w + 7 - now.days % 7) % 7)) := by
    unfold relativeBase
    simp only [h1, h2, h3, h4, h5, Bool.false_eq_true, if_false, if_true]
  by_cases hz : (w + 7 - now.days % 7) % 7 = 0
  · refine ⟨7, ?_, by omega, by omega, by omega⟩
    rw [hb]
    simp [hz]
  · refine ⟨(w + 7 - now.days % 7) % 7, ?_, by omega, by omega, by omega⟩
    rw [hb]
    simp [hz]

/-- Witness for C8: on a Monday, `next monday` resolves to the Monday seven
days ahead, never to the current date. -/
theorem next_weekday_strictly_future_witness :
    ∃ k, relativeBase ⟨0, 9, 30, 0⟩ "next monday".data =
      some (addDays ⟨0, 9, 30, 0⟩ k) ∧ 1 ≤ k ∧ k ≤ 7 ∧
      ((⟨0, 9, 30, 0⟩ : PyDateTime).days + k) % 7 = 0 :=
  next_weekday_strictly_future ⟨0, 9, 30, 0⟩ "next monday".data 0
    (by decide) (by decide) (by decide) (by decide) (by decide)

/-- Claim C9 is refuted on its tags conjunct: with no provider available,
parsing `明天下午3点提醒我开会，很重要` does return priority high, tomorrow
at 15:00, and the stripped title, but the fallback hard-codes `tags: []`,
so the tag list contains no meeting-related label (it contains nothing). -/
theorem parse_example_tags_cex :
    parse_natural_language ⟨0, 8, 30, 11⟩ [] "明天下午3点提醒我开会，很重要".data =
      .ok ⟨"提醒我开会".data, none, "high".data,
        some "2001-01-02T15:00:00".data, []⟩ ∧
    ¬ ∃ tag, tag ∈ (⟨"提醒我开会".data, none, "high".data,
      some "2001-01-02T15:00:00".data, ([] : List (List Char))⟩ : ParsedTask).tags :=
  ⟨rfl, by simp⟩

/-- Claim C9 as amended: for any current datetime, the no-provider parse of
`明天下午3点提醒我开会，很重要` yields priority high (`重要` matched), a due
date of tomorrow at 15:00, the title with date/time/priority markers
stripped — and an empty tag list, since the parse fallback does not invoke
tag inference. -/
theorem parse_example_fallback_amended (now : PyDateTime) :
    parse_natural_language now [] "明天下午3点提醒我开会，很重要".data =
      .ok ⟨"提醒我开会".data, none, "high".data,
        some (isoformat ⟨now.days + 1, 15, 0, 0⟩), []⟩ :=
  rfl

/-- Claim C10: when every provider fails or none is configured, breakdown
returns exactly three subtask strings, each containing the input
description verbatim, in the fixed prepare/execute/complete order. -/
theorem breakdown_fallback_shape (ps : List (ProvOutcome (List (List Char))))
    (d : List Char) (h : try_providers ps = none) :
    breakdown_task ps d =
      ["准备 ".data ++ d, "执行 ".data ++ d, "完成 ".data ++ d] ∧
    (breakdown_task ps d).length = 3 ∧
    ∀ s ∈ breakdown_task ps d, isSubstr d s = true := by
  have hb : breakdown_task ps d = fallbackBreakdown d := by
    simp [breakdown_task, h]
  refine ⟨?_, ?_, ?_⟩
  · rw [hb]; rfl
  · rw [hb]; rfl
  · rw [hb]
    intro s hs
    simp only [fallbackBreakdown, List.mem_cons, List.not_mem_nil, or_false] at hs
    rcases hs with h1 | h1 | h1 <;> subst h1 <;> exact isSubstr_append_left _ _

/-- Witness for C10 at a concrete failing provider list and description. -/
theorem breakdown_fallback_shape_witness :
    breakdown_task [ProvOutcome.raises] "写报告".data =
      ["准备 写报告".data, "执行 写报告".data, "完成 写报告".data] ∧
    (breakdown_task [ProvOutcome.raises] "写报告".data).length = 3 ∧
    ∀ s ∈ breakdown_task [ProvOutcome.raises] "写报告".data,
      isSubstr "写报告".data s = true :=
  breakdown_fallback_shape [ProvOutcome.raises] "写报告".data rfl

end AiService
